import Mathlib

/-!
Verification of the read-through caching layer of the SpoutBreeze backend:
key derivation (`generate_cache_key`), the resilient Redis store wrapper
(`RedisCache`), the `cached` read-through decorator, and the per-resource
cache services with their pattern-based invalidation policies.

The embedding follows `app/config/redis_config.py`, the five services under
`app/services/cached/`, `app/services/bbb_service.py`,
`app/services/event_service.py` and `app/config/settings.py`.
-/

namespace SpoutBreeze

/-- Python runtime values that reach the caching layer as call arguments or
cached results: `None`, booleans, integers, strings, `uuid.UUID` objects, and
the SQLAlchemy `AsyncSession` handle (identified only by object identity
`sid`, standing for its memory address). -/
inductive Value where
  | none
  | bool (b : Bool)
  | int (n : Int)
  | str (s : String)
  | uuid (u : String)
  | session (sid : Nat)
deriving DecidableEq, Repr

/-- Python's `x is None` test (used by `cached` as `is not None`, negated). -/
def Value.isNone : Value → Bool
  | Value.none => true
  | _ => false

/-- Runtime-type test `isinstance(x, AsyncSession)` for the one opaque type. -/
def Value.isDbSession : Value → Bool
  | Value.session _ => true
  | _ => false

/-- CPython `repr` of a single value as it appears inside a container's `str`.
A session handle's repr embeds its memory address, so two distinct handles
always have distinct reprs — which is exactly why they must be excluded from
key derivation. The precise quoting is immaterial to every property proved
below (the digest treats the string as opaque). -/
def pyRepr : Value → String
  | Value.none => "None"
  | Value.bool true => "True"
  | Value.bool false => "False"
  | Value.int n => toString n
  | Value.str s => "\x27" ++ s ++ "\x27"
  | Value.uuid u => "UUID(\x27" ++ u ++ "\x27)"
  | Value.session sid =>
      "<sqlalchemy.ext.asyncio.AsyncSession object at " ++ toString sid ++ ">"

/-- Embeds `str(args)`: repr of the positional-argument tuple. -/
def pyReprTuple (args : List Value) : String :=
  "(" ++ String.intercalate ", " (args.map pyRepr) ++ ")"

/-- The order in which `sorted(kwargs.items())` arranges keyword pairs.
CPython sorts the `(key, value)` tuples lexicographically; keyword names in a
call are unique, so on every actual input this coincides with sorting by the
keyword name alone, which is what we model. -/
def kwByKey (a b : String × Value) : Prop := a.1 ≤ b.1

instance : DecidableRel kwByKey := fun a b => inferInstanceAs (Decidable (a.1 ≤ b.1))

/-- Embeds `sorted(kwargs.items())`. -/
def sortKwargs (kwargs : List (String × Value)) : List (String × Value) :=
  List.insertionSort kwByKey kwargs

/-- Embeds `str(sorted(kwargs.items()))`: repr of the sorted keyword-item list. -/
def pyReprKwargs (kwargs : List (String × Value)) : String :=
  "[" ++ String.intercalate ", "
      ((sortKwargs kwargs).map
        (fun p => "(\x27" ++ p.1 ++ "\x27, " ++ pyRepr p.2 ++ ")")) ++ "]"

/-- Embeds `generate_cache_key(*args, **kwargs)` from `app/config/redis_config.py`:
`key_data = str(args) + str(sorted(kwargs.items()))`, digested by
`hashlib.md5(...).hexdigest()`. The md5 hexdigest itself is external library
code, modelled as an arbitrary function `digest` of the canonical string. -/
def generate_cache_key (digest : String → String)
    (args : List Value) (kwargs : List (String × Value)) : String :=
  digest (pyReprTuple args ++ pyReprKwargs kwargs)

/-- The full key the `cached` wrapper builds:
`f"{key_prefix}:{func.__name__}:{generate_cache_key(*args, **kwargs)}"`. -/
def full_cache_key (digest : String → String) (key_pfx func_name : String)
    (args : List Value) (kwargs : List (String × Value)) : String :=
  key_pfx ++ ":" ++ func_name ++ ":" ++ generate_cache_key digest args kwargs

/-- Modelled from the spec: `cached_db` is imported from
`app.config.redis_config` by every cached service, but that module in the
source tree does not define it. Per spec §4.2/§4.3, its key derivation is
identical to `cached`'s after first filtering out every positional or keyword
argument whose runtime type is the database-session handle. -/
def generate_cache_key_db (digest : String → String)
    (args : List Value) (kwargs : List (String × Value)) : String :=
  generate_cache_key digest
    (args.filter (fun a => !a.isDbSession))
    (kwargs.filter (fun p => !p.2.isDbSession))

/-- Modelled from the spec: the full key built by a `cached_db` wrapper,
opaque-exclusion variant of `full_cache_key`. -/
def full_cache_key_db (digest : String → String) (key_pfx func_name : String)
    (args : List Value) (kwargs : List (String × Value)) : String :=
  key_pfx ++ ":" ++ func_name ++ ":" ++ generate_cache_key_db digest args kwargs

/-- Modelled from the spec: a pickled byte string. `pickle` is standard-library
code (not part of this repository); per spec §4.3 its only contract here is
that serialization round-trips the object graph and that `pickle.dumps` never
returns the empty byte string (so stored bytes are always truthy). We record
the serialized value and leave the byte-level layout abstract. -/
structure Bytes where
  payload : Value
deriving DecidableEq

/-- Embeds `pickle.dumps`. -/
def pickle_dumps (v : Value) : Bytes := Bytes.mk v

/-- Embeds `pickle.loads`. -/
def pickle_loads (b : Bytes) : Value := b.payload

/-- The Redis store as seen through `RedisCache`: the present keys with their
serialized value and TTL, plus whether `self.redis_client` is non-None
(`connect()` succeeded). TTL expiry is enforced by the remote server; within
the no-expiry window considered by the properties below, entries persist. -/
structure RedisState where
  connected : Bool
  store : List (String × Bytes × Nat)
deriving DecidableEq

/-- Lookup of a key in the store contents. -/
def storeGet : List (String × Bytes × Nat) → String → Option (Bytes × Nat)
  | [], _ => Option.none
  | e :: rest, k => if e.1 = k then Option.some e.2 else storeGet rest k

/-- Embeds `SETEX`: store a key, overwriting any previous binding. -/
def storePut (st : List (String × Bytes × Nat)) (k : String) (b : Bytes)
    (ttl : Nat) : List (String × Bytes × Nat) :=
  (k, b, ttl) :: st.filter (fun e => e.1 != k)

namespace RedisCache

/-- Embeds `RedisCache.get`: returns `None` when the client is absent (disabled
store); otherwise issues `GET` — any exception is caught, logged and turned
into `None`; a present value is unpickled (`if value:` is true for every
pickled byte string), an absent one yields `None`. The `fault` flag is the
oracle for "the underlying client call raised". -/
def get (s : RedisState) (fault : Bool) (key : String) : Value :=
  if s.connected = false then Value.none
  else if fault then Value.none
  else match storeGet s.store key with
    | Option.some bt => pickle_loads bt.1
    | Option.none => Value.none

/-- Embeds `RedisCache.set`: `False` when disabled or on a caught exception, else
`SETEX key ttl pickle.dumps(value)` and `True`. -/
def set (s : RedisState) (fault : Bool) (key : String) (v : Value)
    (ttl : Nat) : RedisState × Bool :=
  if s.connected = false then (s, false)
  else if fault then (s, false)
  else ({ s with store := storePut s.store key (pickle_dumps v) ttl }, true)

/-- Embeds `RedisCache.delete`: `False` when disabled or on a caught exception, else
`DEL key` and `True`. -/
def delete (s : RedisState) (fault : Bool) (key : String) : RedisState × Bool :=
  if s.connected = false then (s, false)
  else if fault then (s, false)
  else ({ s with store := s.store.filter (fun e => e.1 != key) }, true)

/-- Redis glob match restricted to the `*` wildcard, the only one the
invalidation patterns use. -/
def globMatch : List Char → List Char → Bool
  | [], s => s.isEmpty
  | p :: ps, s =>
      if p = Char.ofNat 42 then
        (globMatch ps s ||
          (match s with
           | [] => false
           | _ :: srest => globMatch (p :: ps) srest))
      else
        match s with
        | [] => false
        | c :: srest => p == c && globMatch ps srest
termination_by ps s => (ps.length, s.length)

/-- Embeds `RedisCache.delete_pattern`: `KEYS pattern` then a bulk `DEL`; returns
`True` on success even when no key matched, `False` when disabled or on a
caught exception. -/
def delete_pattern (s : RedisState) (fault : Bool) (pat : String) :
    RedisState × Bool :=
  if s.connected = false then (s, false)
  else if fault then (s, false)
  else ({ s with store :=
            s.store.filter (fun e => !globMatch pat.toList e.1.toList) }, true)

/-- Embeds `RedisCache.health_check`: `False` when disabled, `False` when `PING`
raises (exception swallowed), else `True`. -/
def health_check (s : RedisState) (fault : Bool) : Bool :=
  if s.connected = false then false
  else if fault then false
  else true

end RedisCache

/-- Outcome of one invocation of a decorator-produced wrapper: the value
returned (or exception propagated), the store state afterwards, and how many
times the wrapped function was invoked. -/
structure CallResult where
  result : Except String Value
  state : RedisState
  calls : Nat

/-- One invocation of the wrapper produced by `cached(ttl, key_prefix)`
around `func` (redis_config.py lines 140-160): derive the key, try
`cache.get`; on a non-None result return it without calling `func`;
otherwise call `func` — an exception propagates with nothing stored — and
on success `cache.set` the result (its outcome ignored) and return it. -/
def cachedCall (digest : String → String) (ttl : Nat)
    (key_pfx func_name : String)
    (f : List Value → List (String × Value) → Except String Value)
    (args : List Value) (kwargs : List (String × Value))
    (s : RedisState) (getFault setFault : Bool) : CallResult :=
  let cache_key := full_cache_key digest key_pfx func_name args kwargs
  let cached_result := RedisCache.get s getFault cache_key
  if cached_result.isNone = false then
    { result := Except.ok cached_result, state := s, calls := 0 }
  else
    match f args kwargs with
    | Except.error e => { result := Except.error e, state := s, calls := 1 }
    | Except.ok v =>
        { result := Except.ok v,
          state := (RedisCache.set s setFault cache_key v ttl).1,
          calls := 1 }

/-- Truthiness of an optional Python string (`if meeting_id:` /
`if keycloak_id:`): false for `None` and for the empty string. -/
def optStrTruthy : Option String → Bool
  | Option.none => false
  | Option.some s => !s.isEmpty

/-- Python's `a or b` on an optional string and a string default, as in
`resp.get("meetingID") or request.meeting_id`. -/
def pyOrStr (a : Option String) (b : String) : String :=
  match a with
  | Option.some s => if s.isEmpty then b else s
  | Option.none => b

/-- The fields of `EventResponse` the caching layer consults (ids are UUIDs,
rendered as strings; a UUID object is always truthy). -/
structure EventResponse where
  id : String
  channel_id : String
deriving DecidableEq

namespace EventService

/-- The plain `EventService.end_event` (event_service.py 238-285) performs
only database work and a BBB API call through its own plain `BBBService`
instance (event_service.py line 29); it issues no cache operations. -/
def end_event_cache_trace : List String := []

end EventService

namespace EventServiceCached

/-- Embeds `EventServiceCached._invalidate_after_change` (event_service_cached.py
128-145): seven broad `delete_pattern` calls, plus the by-id pattern when
`event_id` is passed (`if event_id:` — a UUID object is always truthy, so
the test reduces to presence). `channel_id` is only logged, never used. -/
def invalidate_after_change (event_id : Option String) : List String :=
  ["events_all:*", "events_status:*", "events_upcoming:*", "events_past:*",
   "events_live:*", "events_channel:*", "events_join:*"] ++
  (match event_id with
   | Option.some i => ["events_by_id:*" ++ i ++ "*"]
   | Option.none => [])

/-- Embeds `create_event`: delegate to `super()`; on success invalidate with the
returned event's id. The second component is the `delete_pattern` trace. -/
def create_event (sup : Except String EventResponse) :
    Except String EventResponse × List String :=
  match sup with
  | Except.error e => (Except.error e, [])
  | Except.ok res => (Except.ok res, invalidate_after_change (Option.some res.id))

/-- Embeds `start_event`: delegate; on success invalidate with the parameter id.
(The underlying result is a `Dict[str, str]`, modelled as opaque `Unit`.) -/
def start_event (event_id : String) (sup : Except String Unit) :
    Except String Unit × List String :=
  match sup with
  | Except.error e => (Except.error e, [])
  | Except.ok r => (Except.ok r, invalidate_after_change (Option.some event_id))

/-- Embeds `end_event`: delegate; on success invalidate with the parameter id. -/
def end_event (event_id : String) (sup : Except String Unit) :
    Except String Unit × List String :=
  match sup with
  | Except.error e => (Except.error e, [])
  | Except.ok r => (Except.ok r, invalidate_after_change (Option.some event_id))

/-- Embeds `update_event`: delegate; on success invalidate with the parameter id. -/
def update_event (event_id : String) (sup : Except String EventResponse) :
    Except String EventResponse × List String :=
  match sup with
  | Except.error e => (Except.error e, [])
  | Except.ok res => (Except.ok res, invalidate_after_change (Option.some event_id))

/-- Embeds `delete_event`: delegate; invalidate only when the underlying delete
reported `True` (`if ok:`). -/
def delete_event (event_id : String) (sup : Except String Bool) :
    Except String Bool × List String :=
  match sup with
  | Except.error e => (Except.error e, [])
  | Except.ok true => (Except.ok true, invalidate_after_change (Option.some event_id))
  | Except.ok false => (Except.ok false, [])

end EventServiceCached

/-- The fields of `ChannelResponse` the caching layer consults. -/
structure ChannelResponse where
  id : String
deriving DecidableEq

namespace ChannelsServiceCached

/-- Embeds `ChannelsServiceCached._invalidate_after_change` (channels_service_cached.py
74-81): five broad patterns, no per-id narrowing. -/
def invalidate_after_change : List String :=
  ["channels_all:*", "channels_user:*", "channels_by_id:*",
   "channels_by_name:*", "channels_recordings:*"]

/-- Embeds `create_channel`: delegate; invalidate on success. -/
def create_channel (sup : Except String ChannelResponse) :
    Except String ChannelResponse × List String :=
  match sup with
  | Except.error e => (Except.error e, [])
  | Except.ok res => (Except.ok res, invalidate_after_change)

/-- Embeds `update_channel`: delegate; invalidate on any non-raising outcome
(including `None` for a channel that was not found). -/
def update_channel (sup : Except String (Option ChannelResponse)) :
    Except String (Option ChannelResponse) × List String :=
  match sup with
  | Except.error e => (Except.error e, [])
  | Except.ok res => (Except.ok res, invalidate_after_change)

/-- Embeds `delete_channel`: delegate; invalidate on any non-raising outcome — the
returned boolean is not consulted. -/
def delete_channel (sup : Except String Bool) :
    Except String Bool × List String :=
  match sup with
  | Except.error e => (Except.error e, [])
  | Except.ok res => (Except.ok res, invalidate_after_change)

end ChannelsServiceCached

/-- The fields of `RtmpEndpointResponse` the caching layer consults. -/
structure RtmpEndpointResponse where
  id : String
deriving DecidableEq

namespace RtmpEndpointServiceCached

/-- Embeds `RtmpEndpointServiceCached._invalidate_after_change`
(rtmp_service_cached.py 68-76): three broad patterns; `user_id` only logged. -/
def invalidate_after_change : List String :=
  ["rtmp_all:*", "rtmp_by_id:*", "rtmp_user:*"]

/-- Embeds `create_rtmp_endpoints`: delegate; invalidate on success. -/
def create_rtmp_endpoints (sup : Except String RtmpEndpointResponse) :
    Except String RtmpEndpointResponse × List String :=
  match sup with
  | Except.error e => (Except.error e, [])
  | Except.ok res => (Except.ok res, invalidate_after_change)

/-- Embeds `update_rtmp_endpoints`: delegate; invalidate on any non-raising outcome
(including `None`). -/
def update_rtmp_endpoints (sup : Except String (Option RtmpEndpointResponse)) :
    Except String (Option RtmpEndpointResponse) × List String :=
  match sup with
  | Except.error e => (Except.error e, [])
  | Except.ok res => (Except.ok res, invalidate_after_change)

/-- Embeds `delete_rtmp_endpoints`: delegate; invalidate on any non-raising outcome
(including `None`). -/
def delete_rtmp_endpoints (sup : Except String (Option RtmpEndpointResponse)) :
    Except String (Option RtmpEndpointResponse) × List String :=
  match sup with
  | Except.error e => (Except.error e, [])
  | Except.ok res => (Except.ok res, invalidate_after_change)

end RtmpEndpointServiceCached

/-- The `{"success": ..., ...}` dict `BBBService.update_meeting_status` and
`meeting_ended_callback` return; every exception in those bodies is caught
and converted to `success = false`, so they never raise. -/
structure BBBStatusResp where
  success : Bool
deriving DecidableEq

/-- The parsed BBB XML response of `end` (`returncode` is `"SUCCESS"` or
`"FAILED"`); `BBBService.end_meeting` returns it even on failure. -/
structure EndMeetingResp where
  returncode : String
deriving DecidableEq

/-- The parsed BBB response of `create`, as consulted by the cached layer:
`resp.get("meetingID")`. -/
structure CreateMeetingResp where
  meetingID : Option String
deriving DecidableEq

namespace BBBServiceCached

/-- Embeds `BBBServiceCached._invalidate_after_change` (bbb_service_cached.py 79-86):
the broad meetings pattern always, and the three per-meeting patterns when
`meeting_id` is truthy (a non-empty string). -/
def invalidate_after_change : Option String → List String
  | Option.some i =>
      if i.isEmpty then ["bbb:meetings:*"]
      else ["bbb:meetings:*", "bbb:meeting_info:*" ++ i ++ "*",
            "bbb:is_running:*" ++ i ++ "*", "bbb:recordings:*" ++ i ++ "*"]
  | Option.none => ["bbb:meetings:*"]

/-- Embeds `create_meeting`: delegate (may raise); on success invalidate with
`resp.get("meetingID") or request.meeting_id`. -/
def create_meeting (request_meeting_id : String)
    (sup : Except String CreateMeetingResp) :
    Except String CreateMeetingResp × List String :=
  match sup with
  | Except.error e => (Except.error e, [])
  | Except.ok resp =>
      (Except.ok resp,
        invalidate_after_change
          (Option.some (pyOrStr resp.meetingID request_meeting_id)))

/-- Embeds `end_meeting`: delegate (may raise); on any non-raising outcome —
including a response whose `returncode` reports failure — invalidate with
`request.meeting_id`. -/
def end_meeting (request_meeting_id : String)
    (sup : Except String EndMeetingResp) :
    Except String EndMeetingResp × List String :=
  match sup with
  | Except.error e => (Except.error e, [])
  | Except.ok resp =>
      (Except.ok resp,
        invalidate_after_change (Option.some request_meeting_id))

/-- Embeds `update_meeting_status`: the base method never raises (it catches every
exception and reports `success = false`); the cached override invalidates
unconditionally after it returns, whatever `resp.success` says. -/
def update_meeting_status (meeting_id : String) (resp : BBBStatusResp) :
    BBBStatusResp × List String :=
  (resp, invalidate_after_change (Option.some meeting_id))

/-- Embeds `meeting_ended_callback` as executed on a `BBBServiceCached` instance:
the base body (bbb_service.py 333-384) calls `self.update_meeting_status`,
which dispatches to the cached override above and so emits a first BBB
sweep; if that update reported success and an `event_id` was supplied, the
event row is looked up (`eventFound` is the oracle for a row with a creator)
and the status transition is performed by a freshly constructed PLAIN
`EventService` — not `EventServiceCached` — whose `end_event` issues no
cache operations (exceptions from it are caught and logged). Finally the
cached override emits a second BBB sweep. -/
def meeting_ended_callback (meeting_id : String) (event_id : Option String)
    (updSuccess : Bool) (eventFound : Bool) : BBBStatusResp × List String :=
  let upd := update_meeting_status meeting_id (BBBStatusResp.mk updSuccess)
  let eventTrace :=
    if updSuccess && event_id.isSome && eventFound then
      EventService.end_event_cache_trace
    else []
  (BBBStatusResp.mk updSuccess,
    upd.2 ++ eventTrace ++ invalidate_after_change (Option.some meeting_id))

end BBBServiceCached

/-- The fields of a `User` row the invalidation helper consults. -/
structure UserRec where
  keycloak_id : String
deriving DecidableEq

namespace UserServiceCached

/-- Embeds `UserServiceCached.invalidate_user_cache` (user_service_cached.py 54-63):
per-user profile and roles patterns, the keycloak pattern when the id is
truthy, and the broad users-list pattern — in source order. -/
def invalidate_user_cache (user_id : String) (keycloak_id : Option String) :
    List String :=
  ["user_profile:*" ++ user_id ++ "*", "user_roles:*" ++ user_id ++ "*"] ++
  (match keycloak_id with
   | Option.some k => if k.isEmpty then [] else ["user_keycloak:*" ++ k ++ "*"]
   | Option.none => []) ++
  ["users_list:*"]

/-- Embeds `update_user_profile`: the UPDATE + commit (`sup`) may raise, which
propagates before any invalidation; on success the user is re-read (`user`)
and `invalidate_user_cache` runs with its keycloak id when the row exists. -/
def update_user_profile (user_id : String) (sup : Except String Unit)
    (user : Option UserRec) :
    Except String (Option UserRec) × List String :=
  match sup with
  | Except.error e => (Except.error e, [])
  | Except.ok _ =>
      (Except.ok user,
        invalidate_user_cache user_id
          (match user with
           | Option.some u => Option.some u.keycloak_id
           | Option.none => Option.none))

/-- Embeds `update_user_role`: same shape as `update_user_profile`. -/
def update_user_role (user_id : String) (sup : Except String Unit)
    (user : Option UserRec) :
    Except String (Option UserRec) × List String :=
  match sup with
  | Except.error e => (Except.error e, [])
  | Except.ok _ =>
      (Except.ok user,
        invalidate_user_cache user_id
          (match user with
           | Option.some u => Option.some u.keycloak_id
           | Option.none => Option.none))

end UserServiceCached

namespace settings

/-- Embeds `app/config/settings.py` lines 59-63. -/
def cache_ttl_short : Nat := 300

def cache_ttl_medium : Nat := 1800

def cache_ttl_long : Nat := 3600

def cache_ttl_user : Nat := 900

def cache_ttl_bbb : Nat := 180

end settings

/-- TTL of `UserServiceCached.get_user_by_id_cached`
(`@cached_db(ttl=settings.cache_ttl_user, key_prefix="user_profile")`). -/
def get_user_by_id_cached_ttl : Nat := settings.cache_ttl_user

/-- TTL of `BBBServiceCached.get_meeting_info_cached`
(`@cached(ttl=settings.cache_ttl_bbb, key_prefix="bbb:meeting_info")`). -/
def get_meeting_info_cached_ttl : Nat := settings.cache_ttl_bbb

/-- TTL of `BBBServiceCached.is_meeting_running_cached`
(`@cached(ttl=60, key_prefix="bbb:is_running")`). -/
def is_meeting_running_cached_ttl : Nat := 60

/-- TTL of `BBBServiceCached.get_meetings_cached`
(`@cached(ttl=settings.cache_ttl_bbb, key_prefix="bbb:meetings")`). -/
def get_meetings_cached_ttl : Nat := settings.cache_ttl_bbb

/-! ## Helper lemmas -/

/-- Filtering is invariant across two lists that agree except at positions
that the filter drops on both sides. -/
theorem filter_eq_of_rel {α : Type} (p : α → Bool) {l l' : List α}
    (h : List.Forall₂ (fun a b => a = b ∨ (p a = false ∧ p b = false)) l l') :
    l.filter p = l'.filter p := by
  induction h with
  | nil => rfl
  | cons hab _ ih =>
      rcases hab with rfl | ⟨ha, hb⟩
      · simp only [List.filter_cons, ih]
      · simp only [List.filter_cons, ha, hb, ih, Bool.false_eq_true, if_false]

/-- A freshly `SETEX`-ed key is found with exactly the stored payload. -/
theorem storeGet_storePut (st : List (String × Bytes × Nat)) (k : String)
    (b : Bytes) (ttl : Nat) : storeGet (storePut st k b ttl) k = Option.some (b, ttl) := by
  simp [storePut, storeGet]

instance : IsTotal (String × Value) kwByKey := ⟨fun a b => le_total a.1 b.1⟩

instance : IsTrans (String × Value) kwByKey := ⟨fun _ _ _ hab hbc => le_trans hab hbc⟩

/-- Keyword items with pairwise-distinct names sort to the same list under
any reordering: the sorted outputs are permutations of each other, both
sorted by name, and distinct names make name-order rigid. -/
theorem sortKwargs_eq_of_perm {kw kw' : List (String × Value)}
    (hperm : kw.Perm kw') (hnd : (kw.map Prod.fst).Nodup) :
    sortKwargs kw = sortKwargs kw' := by
  have h₁ : (sortKwargs kw).Perm kw := List.perm_insertionSort kwByKey kw
  have h₂ : (sortKwargs kw').Perm kw' := List.perm_insertionSort kwByKey kw'
  have hp : (sortKwargs kw).Perm (sortKwargs kw') :=
    h₁.trans (hperm.trans h₂.symm)
  have hs₁ : List.Sorted kwByKey (sortKwargs kw) :=
    List.sorted_insertionSort kwByKey kw
  have hs₂ : List.Sorted kwByKey (sortKwargs kw') :=
    List.sorted_insertionSort kwByKey kw'
  have hnd₁ : ((sortKwargs kw).map Prod.fst).Nodup :=
    ((h₁.map Prod.fst).nodup_iff).mpr hnd
  have hnd' : (kw'.map Prod.fst).Nodup := ((hperm.map Prod.fst).nodup_iff).mp hnd
  have hnd₂ : ((sortKwargs kw').map Prod.fst).Nodup :=
    ((h₂.map Prod.fst).nodup_iff).mpr hnd'
  have strict : ∀ (l : List (String × Value)), List.Sorted kwByKey l →
      (l.map Prod.fst).Nodup →
      List.Sorted (fun a b : String × Value => a.1 < b.1) l := by
    intro l hs hn
    have hne : l.Pairwise (fun a b : String × Value => a.1 ≠ b.1) :=
      List.pairwise_map.mp hn
    exact (hs.and hne).imp (fun h => lt_of_le_of_ne h.1 h.2)
  haveI : IsAntisymm (String × Value) (fun a b : String × Value => a.1 < b.1) :=
    ⟨fun a b h1 h2 => absurd (lt_trans h1 h2) (lt_irrefl _)⟩
  exact List.eq_of_perm_of_sorted hp (strict _ hs₁ hnd₁) (strict _ hs₂ hnd₂)

/-- The relation "equal, or both are database-session handles" on positional
arguments. -/
def sameOrBothSessions (a b : Value) : Prop :=
  a = b ∨ (a.isDbSession = true ∧ b.isDbSession = true)

/-- The relation "equal, or both values are database-session handles" on
keyword items. -/
def sameOrBothSessionsKw (p q : String × Value) : Prop :=
  p = q ∨ (p.2.isDbSession = true ∧ q.2.isDbSession = true)

/-! ## Claims -/

/-- C1. Opaque-argument exclusion: for every read wrapped by `cached_db` and
any two argument lists that differ only in the value of database-session
(opaque-typed) arguments, the derived cache key is identical — the session
handle never enters the digest input. -/
theorem cached_db_opaque_exclusion
    (digest : String → String) (key_pfx func_name : String)
    (args args' : List Value) (kwargs kwargs' : List (String × Value))
    (hargs : List.Forall₂ sameOrBothSessions args args')
    (hkw : List.Forall₂ sameOrBothSessionsKw kwargs kwargs') :
    full_cache_key_db digest key_pfx func_name args kwargs
      = full_cache_key_db digest key_pfx func_name args' kwargs' := by
  have h1 : args.filter (fun a => !a.isDbSession)
      = args'.filter (fun a => !a.isDbSession) := by
    apply filter_eq_of_rel
    refine hargs.imp (fun a b h => ?_)
    rcases h with rfl | ⟨ha, hb⟩
    · exact Or.inl rfl
    · exact Or.inr ⟨by simp [ha], by simp [hb]⟩
  have h2 : kwargs.filter (fun p => !p.2.isDbSession)
      = kwargs'.filter (fun p => !p.2.isDbSession) := by
    apply filter_eq_of_rel
    refine hkw.imp (fun p q h => ?_)
    rcases h with rfl | ⟨ha, hb⟩
    · exact Or.inl rfl
    · exact Or.inr ⟨by simp [ha], by simp [hb]⟩
  unfold full_cache_key_db generate_cache_key_db
  rw [h1, h2]

/-- Witness for C1 at a concrete input: two calls to the user-profile read
through different session handles derive the same key. -/
theorem cached_db_opaque_exclusion_witness :
    List.Forall₂ sameOrBothSessions [Value.uuid "u1", Value.session 7]
      [Value.uuid "u1", Value.session 8]
    ∧ full_cache_key_db (fun s => s) "user_profile" "get_user_by_id_cached"
        [Value.uuid "u1", Value.session 7] []
      = full_cache_key_db (fun s => s) "user_profile" "get_user_by_id_cached"
        [Value.uuid "u1", Value.session 8] [] := by
  have hargs : List.Forall₂ sameOrBothSessions [Value.uuid "u1", Value.session 7]
      [Value.uuid "u1", Value.session 8] :=
    List.Forall₂.cons (Or.inl rfl)
      (List.Forall₂.cons (Or.inr ⟨rfl, rfl⟩) List.Forall₂.nil)
  exact ⟨hargs,
    cached_db_opaque_exclusion (fun s => s) "user_profile" "get_user_by_id_cached"
      _ _ _ _ hargs List.Forall₂.nil⟩

/-- C8. Key determinism and keyword-order invariance: deriving the key twice
from the same inputs yields the same key, and any reordering of the keyword
arguments (whose names are distinct, as Python guarantees) yields the same
key, because keyword items are sorted by name before digesting. -/
theorem cache_key_deterministic
    (digest : String → String) (key_pfx func_name : String) (args : List Value)
    (kwargs kwargs' : List (String × Value))
    (hperm : kwargs.Perm kwargs') (hnd : (kwargs.map Prod.fst).Nodup) :
    full_cache_key digest key_pfx func_name args kwargs
      = full_cache_key digest key_pfx func_name args kwargs
    ∧ full_cache_key digest key_pfx func_name args kwargs
      = full_cache_key digest key_pfx func_name args kwargs' := by
  refine ⟨rfl, ?_⟩
  unfold full_cache_key generate_cache_key pyReprKwargs
  rw [sortKwargs_eq_of_perm hperm hnd]

/-- Witness for C8 at a concrete input: swapping two keyword arguments at the
call site leaves the derived key unchanged. -/
theorem cache_key_deterministic_witness :
    List.Perm [("user_id", Value.uuid "u1"), ("status", Value.str "live")]
      [("status", Value.str "live"), ("user_id", Value.uuid "u1")]
    ∧ full_cache_key (fun s => s) "events_status" "get_events_by_status" []
        [("user_id", Value.uuid "u1"), ("status", Value.str "live")]
      = full_cache_key (fun s => s) "events_status" "get_events_by_status" []
        [("status", Value.str "live"), ("user_id", Value.uuid "u1")] := by
  have hperm : List.Perm [("user_id", Value.uuid "u1"), ("status", Value.str "live")]
      [("status", Value.str "live"), ("user_id", Value.uuid "u1")] :=
    List.Perm.swap _ _ _
  exact ⟨hperm,
    (cache_key_deterministic (fun s => s) "events_status" "get_events_by_status"
      [] _ _ hperm (by decide)).2⟩

/-- C4. Store fault tolerance: with the store disabled (no client after a
failed connect) or the underlying client call raising (caught internally),
`get` returns `None`, `set`/`delete`/`delete_pattern` return `False`, and
`health_check` returns `False`; each operation is a total function of its
inputs — no exception ever reaches the caller. -/
theorem rediscache_fault_tolerant
    (s : RedisState) (fault : Bool) (key pat : String) (v : Value) (ttl : Nat)
    (h : s.connected = false ∨ fault = true) :
    RedisCache.get s fault key = Value.none
    ∧ (RedisCache.set s fault key v ttl).2 = false
    ∧ (RedisCache.delete s fault key).2 = false
    ∧ (RedisCache.delete_pattern s fault pat).2 = false
    ∧ RedisCache.health_check s fault = false := by
  rcases h with h | h
  · simp [RedisCache.get, RedisCache.set, RedisCache.delete,
      RedisCache.delete_pattern, RedisCache.health_check, h]
  · by_cases hc : s.connected = false <;>
      simp [RedisCache.get, RedisCache.set, RedisCache.delete,
        RedisCache.delete_pattern, RedisCache.health_check, h, hc]

/-- Witness for C4 at a concrete input: the disabled store (failed connect)
yields the safe defaults. -/
theorem rediscache_fault_tolerant_witness :
    ((RedisState.mk false []).connected = false ∨ false = true)
    ∧ RedisCache.get (RedisState.mk false []) false "k" = Value.none
    ∧ (RedisCache.set (RedisState.mk false []) false "k" (Value.int 1) 300).2 = false
    ∧ (RedisCache.delete (RedisState.mk false []) false "k").2 = false
    ∧ (RedisCache.delete_pattern (RedisState.mk false []) false "events_all:*").2 = false
    ∧ RedisCache.health_check (RedisState.mk false []) false = false :=
  ⟨Or.inl rfl,
    rediscache_fault_tolerant (RedisState.mk false []) false "k" "events_all:*"
      (Value.int 1) 300 (Or.inl rfl)⟩

/-- C9 fails as stated: the user-profile read is decorated with
`ttl=settings.cache_ttl_user` (900 seconds, not the short tier's 300), and
the is-meeting-running status read is decorated with a hard-coded `ttl=60`
(not the bbb tier's 180). -/
theorem ttl_tier_counterexample :
    ¬ (get_user_by_id_cached_ttl = 300 ∧ is_meeting_running_cached_ttl = 180) := by
  decide

/-- C9 (amended): user profile reads are cached with the user tier TTL of
900 seconds; meeting-info and meetings-list reads from the external
conferencing API use the bbb tier TTL of 180 seconds, while the
is-meeting-running status read uses a hard-coded 60-second TTL. -/
theorem ttl_tier_assignment :
    get_user_by_id_cached_ttl = 900
    ∧ get_meeting_info_cached_ttl = 180
    ∧ get_meetings_cached_ttl = 180
    ∧ is_meeting_running_cached_ttl = 60 := by
  decide

/-- C10. A stored `None` is indistinguishable from absence: after a
successful `set(k, None, ttl)` on a connected store, `get(k)` returns `None`
— exactly what `get` returns for any key the store does not hold. -/
theorem stored_none_indistinguishable (s : RedisState) (k : String) (ttl : Nat)
    (h : s.connected = true) :
    (RedisCache.set s false k Value.none ttl).2 = true
    ∧ RedisCache.get (RedisCache.set s false k Value.none ttl).1 false k = Value.none
    ∧ (∀ s₂ : RedisState, storeGet s₂.store k = Option.none →
        RedisCache.get s₂ false k = Value.none) := by
  refine ⟨?_, ?_, ?_⟩
  · simp [RedisCache.set, h]
  · simp [RedisCache.set, RedisCache.get, h, storeGet_storePut,
      pickle_dumps, pickle_loads]
  · intro s₂ h₂
    by_cases hc : s₂.connected = false <;> simp [RedisCache.get, hc, h₂]

/-- Witness for C10 at a concrete input: storing `None` on an empty
connected store, then reading it back. -/
theorem stored_none_indistinguishable_witness :
    (RedisState.mk true []).connected = true
    ∧ (RedisCache.set (RedisState.mk true []) false "user_profile:f:abc"
        Value.none 900).2 = true
    ∧ RedisCache.get (RedisCache.set (RedisState.mk true []) false
        "user_profile:f:abc" Value.none 900).1 false "user_profile:f:abc"
        = Value.none :=
  ⟨rfl,
    (stored_none_indistinguishable (RedisState.mk true []) "user_profile:f:abc"
      900 rfl).1,
    (stored_none_indistinguishable (RedisState.mk true []) "user_profile:f:abc"
      900 rfl).2.1⟩

/-- The patterns C2 requires an Event write to invalidate when the event id
is known. -/
def eventClaimPatterns (i : String) : List String :=
  ["events_all:*", "events_status:*", "events_upcoming:*", "events_past:*",
   "events_live:*", "events_channel:*", "events_join:*",
   "events_by_id:*" ++ i ++ "*"]

/-- Every pattern C2 requires is in the trace of `_invalidate_after_change`
when called with the event id. -/
theorem eventClaim_subset (i : String) :
    eventClaimPatterns i
      ⊆ EventServiceCached.invalidate_after_change (Option.some i) := by
  intro p hp
  simp only [eventClaimPatterns, List.mem_cons, List.mem_singleton,
    List.not_mem_nil] at hp
  simp only [EventServiceCached.invalidate_after_change, List.mem_append,
    List.mem_cons, List.mem_singleton, List.not_mem_nil]
  tauto

/-- C2. Event invalidation completeness: every Event write operation, when
its delegated mutation completes successfully (for `delete_event`, reports
`True`), issues delete-by-pattern calls covering all seven broad event
patterns and the by-id pattern — the event id is known on every one of the
five write paths. -/
theorem event_invalidation_complete
    (res : EventResponse) (eid : String) (u : Unit) :
    eventClaimPatterns res.id ⊆ (EventServiceCached.create_event (Except.ok res)).2
    ∧ eventClaimPatterns eid ⊆ (EventServiceCached.start_event eid (Except.ok u)).2
    ∧ eventClaimPatterns eid ⊆ (EventServiceCached.end_event eid (Except.ok u)).2
    ∧ eventClaimPatterns eid ⊆ (EventServiceCached.update_event eid (Except.ok res)).2
    ∧ eventClaimPatterns eid ⊆ (EventServiceCached.delete_event eid (Except.ok true)).2 := by
  exact ⟨eventClaim_subset res.id, eventClaim_subset eid, eventClaim_subset eid,
    eventClaim_subset eid, eventClaim_subset eid⟩

/-- Witness for C2 at a concrete input: ending event `e1` invalidates every
required pattern. -/
theorem event_invalidation_complete_witness :
    eventClaimPatterns "e1"
      ⊆ (EventServiceCached.end_event "e1" (Except.ok ())).2 :=
  (event_invalidation_complete (EventResponse.mk "e1" "c1") "e1" ()).2.2.1

/-- C5 fails as stated: at the concrete callback invocation
`meeting_ended_callback("m1", event_id="e1")` with a successful status
update and a matching event row, no Event-resource pattern is invalidated —
the event's `end` transition is performed by a freshly constructed plain
`EventService`, not the cached one, so the Event invalidation set
(starting with `events_all:*`) never runs. -/
theorem meeting_ended_callback_counterexample :
    "events_all:*"
      ∉ (BBBServiceCached.meeting_ended_callback "m1" (Option.some "e1")
          true true).2 := by
  decide

/-- C5 (amended): a meeting-ended callback with a known (non-empty) meeting
id issues the BBB invalidation set twice — once through the dispatched
`update_meeting_status` override and once in the callback override — and
triggers the plain Event service's end path, which performs the status
transition but issues no cache invalidation; the trace is exactly two BBB
sweeps and contains all four BBB patterns (and hence no Event pattern). -/
theorem meeting_ended_callback_invalidation
    (meeting_id : String) (event_id : Option String)
    (updSuccess eventFound : Bool) (hm : meeting_id.isEmpty = false) :
    (BBBServiceCached.meeting_ended_callback meeting_id event_id
        updSuccess eventFound).2
      = BBBServiceCached.invalidate_after_change (Option.some meeting_id)
        ++ BBBServiceCached.invalidate_after_change (Option.some meeting_id)
    ∧ ["bbb:meetings:*", "bbb:meeting_info:*" ++ meeting_id ++ "*",
       "bbb:is_running:*" ++ meeting_id ++ "*",
       "bbb:recordings:*" ++ meeting_id ++ "*"]
        ⊆ (BBBServiceCached.meeting_ended_callback meeting_id event_id
            updSuccess eventFound).2 := by
  have htrace : (BBBServiceCached.meeting_ended_callback meeting_id event_id
      updSuccess eventFound).2
      = BBBServiceCached.invalidate_after_change (Option.some meeting_id)
        ++ BBBServiceCached.invalidate_after_change (Option.some meeting_id) := by
    unfold BBBServiceCached.meeting_ended_callback
      BBBServiceCached.update_meeting_status EventService.end_event_cache_trace
    simp only [ite_self, List.append_nil]
  have hset : BBBServiceCached.invalidate_after_change (Option.some meeting_id)
      = ["bbb:meetings:*", "bbb:meeting_info:*" ++ meeting_id ++ "*",
         "bbb:is_running:*" ++ meeting_id ++ "*",
         "bbb:recordings:*" ++ meeting_id ++ "*"] := by
    simp [BBBServiceCached.invalidate_after_change, hm]
  refine ⟨htrace, ?_⟩
  rw [htrace, hset]
  intro p hp
  simp only [List.mem_append, List.mem_cons, List.not_mem_nil] at hp ⊢
  tauto

/-- Witness for C5 (amended) at a concrete input. -/
theorem meeting_ended_callback_invalidation_witness :
    ("m1".isEmpty = false)
    ∧ (BBBServiceCached.meeting_ended_callback "m1" (Option.some "e1")
        true true).2
      = BBBServiceCached.invalidate_after_change (Option.some "m1")
        ++ BBBServiceCached.invalidate_after_change (Option.some "m1") :=
  ⟨rfl, (meeting_ended_callback_invalidation "m1" (Option.some "e1")
    true true rfl).1⟩

/-- C7 fails as stated: `BBBService.update_meeting_status` reports failure by
returning a `success = false` dict (it catches its own exceptions), and the
cached override nevertheless issues the full BBB invalidation sweep. -/
theorem invalidation_on_reported_failure_counterexample :
    "bbb:meetings:*"
      ∈ (BBBServiceCached.update_meeting_status "m1"
          (BBBStatusResp.mk false)).2 := by
  decide

/-- C7 (amended): every cached write operation skips invalidation when its
delegated mutation raises (the exception propagates with an empty
delete-by-pattern trace), and `delete_event` additionally guards on its
boolean; but a BBB write whose base method reports failure inside its
response — `update_meeting_status`/`meeting_ended_callback` returning
`success = false`, or `end_meeting` returning a FAILED returncode — still
issues its invalidation sweep. -/
theorem invalidation_only_after_success
    (e : String) (eid mid uid : String) (u : Option UserRec) :
    (EventServiceCached.create_event (Except.error e)).2 = []
    ∧ (EventServiceCached.start_event eid (Except.error e)).2 = []
    ∧ (EventServiceCached.end_event eid (Except.error e)).2 = []
    ∧ (EventServiceCached.update_event eid (Except.error e)).2 = []
    ∧ (EventServiceCached.delete_event eid (Except.error e)).2 = []
    ∧ (EventServiceCached.delete_event eid (Except.ok false)).2 = []
    ∧ (ChannelsServiceCached.create_channel (Except.error e)).2 = []
    ∧ (ChannelsServiceCached.update_channel (Except.error e)).2 = []
    ∧ (ChannelsServiceCached.delete_channel (Except.error e)).2 = []
    ∧ (RtmpEndpointServiceCached.create_rtmp_endpoints (Except.error e)).2 = []
    ∧ (RtmpEndpointServiceCached.update_rtmp_endpoints (Except.error e)).2 = []
    ∧ (RtmpEndpointServiceCached.delete_rtmp_endpoints (Except.error e)).2 = []
    ∧ (BBBServiceCached.create_meeting mid (Except.error e)).2 = []
    ∧ (BBBServiceCached.end_meeting mid (Except.error e)).2 = []
    ∧ (UserServiceCached.update_user_profile uid (Except.error e) u).2 = []
    ∧ (UserServiceCached.update_user_role uid (Except.error e) u).2 = []
    ∧ (BBBServiceCached.update_meeting_status mid (BBBStatusResp.mk false)).2
        = BBBServiceCached.invalidate_after_change (Option.some mid)
    ∧ (BBBServiceCached.end_meeting mid
        (Except.ok (EndMeetingResp.mk "FAILED"))).2
        = BBBServiceCached.invalidate_after_change (Option.some mid) :=
  ⟨rfl, rfl, rfl, rfl, rfl, rfl, rfl, rfl, rfl, rfl, rfl, rfl, rfl, rfl,
    rfl, rfl, rfl, rfl⟩

/-- Witness for C7 (amended) at a concrete input: a raising delete issues no
invalidation, while a failure-reporting status update still sweeps. -/
theorem invalidation_only_after_success_witness :
    (EventServiceCached.delete_event "e1" (Except.error "boom")).2 = []
    ∧ (BBBServiceCached.update_meeting_status "m1" (BBBStatusResp.mk false)).2
        = BBBServiceCached.invalidate_after_change (Option.some "m1") :=
  ⟨(invalidation_only_after_success "boom" "e1" "m1" "u1"
      Option.none).2.2.2.2.1,
    (invalidation_only_after_success "boom" "e1" "m1" "u1"
      Option.none).2.2.2.2.2.2.2.2.2.2.2.2.2.2.2.2.1⟩

/-- C3 fails as stated: a pure wrapped function whose value is `None` is
invoked by BOTH of two successive wrapper calls (on a connected, faultless,
initially empty store), because the wrapper's `is not None` hit test cannot
distinguish the stored `None` from a miss — so "at most once" is violated. -/
theorem cached_at_most_once_counterexample :
    ¬ ((cachedCall (fun s => s) 300 "p" "f" (fun _ _ => Except.ok Value.none)
          [] [] (RedisState.mk true []) false false).calls
        + (cachedCall (fun s => s) 300 "p" "f" (fun _ _ => Except.ok Value.none)
            [] []
            (cachedCall (fun s => s) 300 "p" "f"
              (fun _ _ => Except.ok Value.none)
              [] [] (RedisState.mk true []) false false).state
            false false).calls ≤ 1) := by
  decide

/-- C3 (amended): a `cached`-wrapped pure function whose result is not
`None`, called twice with the same arguments on a connected faultless store
with no intervening invalidation or expiry, is invoked at most once in
total, and the second call returns a value equal to the first call's
(serialization round-trips). A function returning `None` is re-invoked on
every call, since the wrapper cannot distinguish a stored `None` from a
miss. -/
theorem cached_read_through_at_most_once
    (digest : String → String) (ttl : Nat) (key_pfx func_name : String)
    (f : List Value → List (String × Value) → Except String Value)
    (args : List Value) (kwargs : List (String × Value))
    (s : RedisState) (v : Value)
    (hconn : s.connected = true) (hf : f args kwargs = Except.ok v)
    (hv : v.isNone = false) :
    (cachedCall digest ttl key_pfx func_name f args kwargs s false false).calls
      + (cachedCall digest ttl key_pfx func_name f args kwargs
          (cachedCall digest ttl key_pfx func_name f args kwargs
            s false false).state false false).calls ≤ 1
    ∧ (cachedCall digest ttl key_pfx func_name f args kwargs
        (cachedCall digest ttl key_pfx func_name f args kwargs
          s false false).state false false).result
      = (cachedCall digest ttl key_pfx func_name f args kwargs
          s false false).result := by
  have hnc : ¬ s.connected = false := by simp [hconn]
  by_cases h : (RedisCache.get s false
      (full_cache_key digest key_pfx func_name args kwargs)).isNone = false
  · constructor <;> simp [cachedCall, h]
  · have h' : (RedisCache.get s false
        (full_cache_key digest key_pfx func_name args kwargs)).isNone = true := by
      revert h
      cases (RedisCache.get s false
        (full_cache_key digest key_pfx func_name args kwargs)).isNone <;> simp
    have hget : RedisCache.get
        (RedisCache.set s false
          (full_cache_key digest key_pfx func_name args kwargs) v ttl).1 false
        (full_cache_key digest key_pfx func_name args kwargs) = v := by
      simp [RedisCache.set, RedisCache.get, hnc, storeGet_storePut,
        pickle_dumps, pickle_loads]
    constructor <;> simp [cachedCall, h', hf, hget, hv]

/-- Witness for C3 (amended) at a concrete input: a pure function returning
the integer 7, called twice through the wrapper on an empty connected
store. -/
theorem cached_read_through_at_most_once_witness :
    (RedisState.mk true []).connected = true
    ∧ (fun (_ : List Value) (_ : List (String × Value)) =>
        Except.ok (ε := String) (Value.int 7)) [] [] = Except.ok (Value.int 7)
    ∧ (Value.int 7).isNone = false
    ∧ (cachedCall (fun s => s) 300 "p" "f"
        (fun _ _ => Except.ok (Value.int 7)) [] []
        (RedisState.mk true []) false false).calls
      + (cachedCall (fun s => s) 300 "p" "f"
          (fun _ _ => Except.ok (Value.int 7)) [] []
          (cachedCall (fun s => s) 300 "p" "f"
            (fun _ _ => Except.ok (Value.int 7)) [] []
            (RedisState.mk true []) false false).state false false).calls ≤ 1 :=
  ⟨rfl, rfl, rfl,
    (cached_read_through_at_most_once (fun s => s) 300 "p" "f"
      (fun _ _ => Except.ok (Value.int 7)) [] [] (RedisState.mk true [])
      (Value.int 7) rfl rfl rfl).1⟩

/-- C6. Exception transparency: whenever the wrapper actually invokes the
wrapped function — which happens exactly on a cache miss — and the function
raises, the wrapper propagates that same exception and leaves the store
untouched (nothing is cached, no negative caching). -/
theorem cached_exception_transparent
    (digest : String → String) (ttl : Nat) (key_pfx func_name : String)
    (f : List Value → List (String × Value) → Except String Value)
    (args : List Value) (kwargs : List (String × Value))
    (s : RedisState) (getFault setFault : Bool) (e : String)
    (hmiss : (RedisCache.get s getFault
        (full_cache_key digest key_pfx func_name args kwargs)).isNone = true)
    (hf : f args kwargs = Except.error e) :
    (cachedCall digest ttl key_pfx func_name f args kwargs
        s getFault setFault).result = Except.error e
    ∧ (cachedCall digest ttl key_pfx func_name f args kwargs
        s getFault setFault).state = s
    ∧ (cachedCall digest ttl key_pfx func_name f args kwargs
        s getFault setFault).calls = 1 := by
  refine ⟨?_, ?_, ?_⟩ <;> simp [cachedCall, hmiss, hf]

/-- Witness for C6 at a concrete input: a function raising on an empty
connected store; the error propagates and the store is unchanged. -/
theorem cached_exception_transparent_witness :
    (RedisCache.get (RedisState.mk true []) false
        (full_cache_key (fun s => s) "p" "f" [] [])).isNone = true
    ∧ (cachedCall (fun s => s) 300 "p" "f"
        (fun _ _ => Except.error "boom") [] []
        (RedisState.mk true []) false false).result = Except.error "boom"
    ∧ (cachedCall (fun s => s) 300 "p" "f"
        (fun _ _ => Except.error "boom") [] []
        (RedisState.mk true []) false false).state = RedisState.mk true [] := by
  refine ⟨rfl, ?_, ?_⟩
  · exact (cached_exception_transparent (fun s => s) 300 "p" "f"
      (fun _ _ => Except.error "boom") [] [] (RedisState.mk true [])
      false false "boom" rfl rfl).1
  · exact (cached_exception_transparent (fun s => s) 300 "p" "f"
      (fun _ _ => Except.error "boom") [] [] (RedisState.mk true [])
      false false "boom" rfl rfl).2.1

end SpoutBreeze
